import Mathlib

/-!
Shallow embedding of the two core subsystems of `src/lib/phaser/system.js`:

* `Phaser.Device` — the capability registry: the ready-state coordinator
  (`whenReady`, `_readyCheck`, `_initialize`) and the pure media-capability
  queries (`canPlayAudio`, `canPlayVideo`).
* `Phaser.RequestAnimationFrame` — the frame scheduler (`start`, `updateRAF`,
  `updateSetTimeout`, `stop`, `isSetTimeOut`, `isRAF`).

JavaScript state is modelled as explicit state passing over structures; host
interactions (listener attachment, timer/frame scheduling requests, callback
invocations) are recorded as explicit event lists in the order the source
emits them.  Callbacks and contexts are opaque identifiers (`Nat`): at every
invocation site in the source the call is `callback.call(context, this)`, so
an invocation is fully described by the (callback, context) pair, the first
argument always being the registry (`this`) itself.  A JavaScript `TypeError`
(property access on `null`) is modelled by `Option.none`.
-/

set_option autoImplicit false

namespace Phaser

/-- Which listener strategy the arming branch of `Phaser.Device.whenReady`
attaches (lines 558-573 of `system.js`). -/
inductive ListenStrategy where
  /-- `window.setTimeout(readyCheck._monitor, 0)` — next tick, not synchronous. -/
  | timeoutZero : ListenStrategy
  /-- `document.addEventListener('deviceready', readyCheck._monitor, false)` only. -/
  | deviceReadyEvent : ListenStrategy
  /-- both `DOMContentLoaded` (document) and `load` (window) listeners. -/
  | contentAndLoad : ListenStrategy
  deriving DecidableEq, Repr

/-- Observable host interactions of the registry, in emission order. -/
inductive Event where
  /-- the probe pass `Phaser.Device._initialize` executes. -/
  | probeRun : Event
  /-- the capability record is written (inside `_initialize`). -/
  | capWrite : Event
  /-- `this.onInitialized.dispatch(this)`. -/
  | dispatchInit : Event
  /-- `callback.call(context, this)`: the callback id runs with the context id
  as receiver and the registry itself as first argument. -/
  | invoke (cb ctx : Nat) : Event
  /-- a listener strategy is attached by the arming branch of `whenReady`. -/
  | attach (s : ListenStrategy) : Event
  /-- `window.setTimeout(readyCheck._monitor, 20)` — the no-body retry poll. -/
  | scheduleRetry : Event
  deriving DecidableEq, Repr

/-- State of the `Phaser.Device` singleton: the ready-state coordination
fields (constructor lines 30-44 plus the `_readyCheck`/`_monitor`/`_queue`
machinery of lines 536-620) and the media-capability flags read by
`canPlayAudio` / `canPlayVideo`.  The remaining several dozen capability
flags play no role in any claim and are elided. -/
structure Device where
  /-- `this.deviceReadyAt` — 0 until the ready transition (JS falsy). -/
  deviceReadyAt : Nat
  /-- `this.initialized`. -/
  initialized : Bool
  /-- `this._readyCheck` is non-null (it is nulled at the end of the ready
  transition, line 615). -/
  readyCheckPresent : Bool
  /-- `this._readyCheck._monitor` has been set (the bound monitor, line 551). -/
  monitorSet : Bool
  /-- `this._readyCheck._queue` — pending (callback, context) pairs. -/
  queue : List (Nat × Nat)
  -- audio capability flags (written by the `_checkAudio` probe)
  mp3 : Bool
  ogg : Bool
  m4a : Bool
  opus : Bool
  wav : Bool
  webm : Bool
  -- video capability flags (written by the `_checkVideo` probe)
  oggVideo : Bool
  webmVideo : Bool
  vp9Video : Bool
  mp4Video : Bool
  h264Video : Bool
  hlsVideo : Bool
  deriving DecidableEq, Repr

/-- The `Phaser.Device` singleton as built by its constructor and the
load-time assignment of `Phaser.Device._readyCheck`: not ready, not
initialized, ready-check present, monitor unset, queue empty, every
capability flag false. -/
def Device.init : Device where
  deviceReadyAt := 0
  initialized := false
  readyCheckPresent := true
  monitorSet := false
  queue := []
  mp3 := false
  ogg := false
  m4a := false
  opus := false
  wav := false
  webm := false
  oggVideo := false
  webmVideo := false
  vp9Video := false
  mp4Video := false
  h264Video := false
  hlsVideo := false

/-- `Phaser.Device.canPlayAudio` (lines 1202-1231): an if/else-if chain over
the audio type string and the audio capability flags. -/
def Device.canPlayAudio (d : Device) (type : String) : Bool :=
  if type = "mp3" ∧ d.mp3 then true
  else if type = "ogg" ∧ (d.ogg ∨ d.opus) then true
  else if type = "m4a" ∧ d.m4a then true
  else if type = "opus" ∧ d.opus then true
  else if type = "wav" ∧ d.wav then true
  else if type = "webm" ∧ d.webm then true
  else false

/-- `Phaser.Device.canPlayVideo` (lines 1241-1262): an if/else-if chain over
the video type string and the video capability flags. -/
def Device.canPlayVideo (d : Device) (type : String) : Bool :=
  if type = "webm" ∧ (d.webmVideo ∨ d.vp9Video) then true
  else if type = "mp4" ∧ (d.mp4Video ∨ d.h264Video) then true
  else if (type = "ogg" ∨ type = "ogv") ∧ d.oggVideo then true
  else if type = "mpeg" ∧ d.hlsVideo then true
  else false

/-- The host facts inspected by the arming branch of `whenReady`
(lines 555-558): `document.readyState`, `window.cordova`,
`navigator.isCocoonJS`. -/
structure Host where
  readyStateComplete : Bool
  readyStateInteractive : Bool
  cordova : Bool
  isCocoonJS : Bool
  deriving DecidableEq, Repr

/-- The listener-strategy selection of `whenReady` lines 558-573:
(1) document already interactive/complete — `setTimeout(monitor, 0)`;
(2) Cordova and not CocoonJS — `deviceready` only;
(3) otherwise — `DOMContentLoaded` and window `load`. -/
def Host.chooseStrategy (h : Host) : ListenStrategy :=
  if h.readyStateComplete ∨ h.readyStateInteractive then .timeoutZero
  else if h.cordova ∧ ¬h.isCocoonJS then .deviceReadyEvent
  else .contentAndLoad

/-- `Phaser.Device.whenReady` (lines 536-576).  Branch 1
(`this.deviceReadyAt || !readyCheck`): invoke the callback immediately with
the context and the registry.  Branch 2 (`readyCheck._monitor || nonPrimer`):
append to the queue.  Branch 3: set the monitor, append to the queue and
attach the host-chosen listener strategy. -/
def Device.whenReady (d : Device) (cb ctx : Nat) (nonPrimer : Bool) (host : Host) :
    Device × List Event :=
  if d.deviceReadyAt ≠ 0 ∨ ¬d.readyCheckPresent then
    (d, [Event.invoke cb ctx])
  else if d.monitorSet ∨ nonPrimer then
    ({ d with queue := d.queue ++ [(cb, ctx)] }, [])
  else
    ({ d with monitorSet := true, queue := d.queue ++ [(cb, ctx)] },
     [Event.attach host.chooseStrategy])

/-- A probe function leaves every ready-state coordination field untouched:
the source `_initialize` (lines 629-1192) only writes capability flags. -/
def ProbePreserves (probe : Device → Device) : Prop :=
  ∀ d : Device,
    (probe d).deviceReadyAt = d.deviceReadyAt ∧
    (probe d).initialized = d.initialized ∧
    (probe d).readyCheckPresent = d.readyCheckPresent ∧
    (probe d).monitorSet = d.monitorSet ∧
    (probe d).queue = d.queue

/-- One firing of `Phaser.Device._readyCheck` (lines 585-620), i.e. of the
bound `readyCheck._monitor`.  `probe` is the host-specific probe pass
`Phaser.Device._initialize`; `bodyPresent` is `document.body` truthiness;
`now` is `Date.now()` at this firing.  The local `readyCheck` variable is
`this._readyCheck`: when that is null, the first two branches dereference
`readyCheck._monitor` / `readyCheck._queue` and throw (`none`). -/
def Device.readyCheckStep (probe : Device → Device) (d : Device)
    (bodyPresent : Bool) (now : Nat) : Option (Device × List Event) :=
  if ¬bodyPresent then
    -- window.setTimeout(readyCheck._monitor, 20)
    if d.readyCheckPresent then some (d, [Event.scheduleRetry]) else none
  else if d.deviceReadyAt = 0 then
    if d.readyCheckPresent then
      -- this.deviceReadyAt = Date.now(); remove listeners; this._initialize();
      -- this.initialized = true; onInitialized.dispatch; drain _queue FIFO;
      -- this._readyCheck = null
      let d1 := probe { d with deviceReadyAt := now }
      some ({ d1 with initialized := true, readyCheckPresent := false, queue := [] },
        [Event.probeRun, Event.capWrite, Event.dispatchInit] ++
          d.queue.map (fun p => Event.invoke p.1 p.2))
    else none
  else
    some (d, [])

/-- An externally triggered registry operation: a `whenReady` call, or a
readiness-signal firing reaching `_readyCheck`. -/
inductive Op where
  | subscribe (cb ctx : Nat) (nonPrimer : Bool) (host : Host) : Op
  | fire (bodyPresent : Bool) (now : Nat) : Op

/-- Every `fire` in the operation carries a positive `Date.now()` reading
(true of any host whose clock is past the Unix epoch). -/
def Op.fireTimePos : Op → Prop
  | .subscribe _ _ _ _ => True
  | .fire _ now => 0 < now

/-- Apply one operation to the registry. -/
def Device.applyOp (probe : Device → Device) (d : Device) :
    Op → Option (Device × List Event)
  | .subscribe cb ctx np host => some (d.whenReady cb ctx np host)
  | .fire bodyPresent now => d.readyCheckStep probe bodyPresent now

/-- Run a sequence of operations, threading the state and concatenating the
emitted events; a thrown `TypeError` (`none`) aborts the run. -/
def Device.runOps (probe : Device → Device) (d : Device) :
    List Op → Option (Device × List Event)
  | [] => some (d, [])
  | op :: ops =>
    match d.applyOp probe op with
    | none => none
    | some (d1, evs1) =>
      match d1.runOps probe ops with
      | none => none
      | some (d2, evs2) => some (d2, evs1 ++ evs2)

/-- The (callback, context) invocation log of an event list, in order. -/
def Event.invokes (evs : List Event) : List (Nat × Nat) :=
  evs.filterMap fun e =>
    match e with
    | .invoke cb ctx => some (cb, ctx)
    | _ => none

/-- How many listener attachments an event list records. -/
def Event.attachCount (evs : List Event) : Nat :=
  evs.countP fun e =>
    match e with
    | .attach _ => true
    | _ => false

/-- Observable host interactions of the frame scheduler, in emission order. -/
inductive SchedEvent where
  /-- `window.requestAnimationFrame(this._onLoop)` — a new frame request. -/
  | requestFrame : SchedEvent
  /-- `window.setTimeout(this._onLoop, delay)` — a new timer request. -/
  | setTimeoutCall (delay : Nat) : SchedEvent
  /-- `window.cancelAnimationFrame(id)`. -/
  | cancelFrame (id : Nat) : SchedEvent
  /-- `clearTimeout(id)`. -/
  | clearTimeout (id : Nat) : SchedEvent
  /-- `this.game.update(time)` — the driver is invoked with this timestamp. -/
  | driverCall (time : Nat) : SchedEvent
  deriving DecidableEq, Repr

/-- State of a `Phaser.RequestAnimationFrame` instance (constructor lines
2048-2099).  `_onLoop` is a stable closure once set and needs no field;
`setTimeOutFlag` is the private `_isSetTimeOut`; `timeOutID` is `_timeOutID`
(0 standing for the initial null). -/
structure RAF where
  isRunning : Bool
  forceSetTimeOut : Bool
  setTimeOutFlag : Bool
  timeOutID : Nat
  deriving DecidableEq, Repr

/-- The constructor `Phaser.RequestAnimationFrame(game, forceSetTimeOut)`:
not running, `_isSetTimeOut = false`, `_timeOutID = null`. -/
def RAF.construct (forceSetTimeOut : Bool) : RAF where
  isRunning := false
  forceSetTimeOut := forceSetTimeOut
  setTimeOutFlag := false
  timeOutID := 0

/-- `Phaser.RequestAnimationFrame.prototype.start` (lines 2107-2134).
`rafAvailable` is the truthiness of `window.requestAnimationFrame` after the
constructor's vendor-prefix fill-in; `newID` is the token returned by the
scheduling primitive. -/
def RAF.start (r : RAF) (rafAvailable : Bool) (newID : Nat) : RAF × List SchedEvent :=
  let r1 := { r with isRunning := true }
  if ¬rafAvailable ∨ r1.forceSetTimeOut then
    ({ r1 with setTimeOutFlag := true, timeOutID := newID },
     [SchedEvent.setTimeoutCall 0])
  else
    ({ r1 with setTimeOutFlag := false, timeOutID := newID },
     [SchedEvent.requestFrame])

/-- `Phaser.RequestAnimationFrame.prototype.stop` (lines 2166-2179): cancel
via the path-matching primitive, then `isRunning = false`. -/
def RAF.stop (r : RAF) : RAF × List SchedEvent :=
  if r.setTimeOutFlag then
    ({ r with isRunning := false }, [SchedEvent.clearTimeout r.timeOutID])
  else
    ({ r with isRunning := false }, [SchedEvent.cancelFrame r.timeOutID])

/-- `Phaser.RequestAnimationFrame.prototype.isSetTimeOut` (line 2186). -/
def RAF.isSetTimeOut (r : RAF) : Bool :=
  r.setTimeOutFlag

/-- `Phaser.RequestAnimationFrame.prototype.isRAF` (line 2195):
`this._isSetTimeOut === false`. -/
def RAF.isRAF (r : RAF) : Bool :=
  r.setTimeOutFlag = false

/-- `Phaser.RequestAnimationFrame.prototype.updateRAF` (lines 2141-2148).
The driver `game.update` is an external collaborator that may re-enter the
scheduler (e.g. call `stop`); it receives the floored timestamp and the
current scheduler state and returns the new state plus its own events.
After the driver returns, the source unconditionally executes
`this._timeOutID = window.requestAnimationFrame(this._onLoop)`. -/
def RAF.updateRAF (driver : Nat → RAF → RAF × List SchedEvent) (r : RAF)
    (rafTime : Nat) (newID : Nat) : RAF × List SchedEvent :=
  let (r1, evs1) := driver rafTime r
  ({ r1 with timeOutID := newID },
   SchedEvent.driverCall rafTime :: evs1 ++ [SchedEvent.requestFrame])

/-- `Phaser.RequestAnimationFrame.prototype.updateSetTimeout` (lines
2154-2160).  After the driver returns, the source unconditionally executes
`this._timeOutID = window.setTimeout(this._onLoop, this.game.time.timeToCall)`. -/
def RAF.updateSetTimeout (driver : Nat → RAF → RAF × List SchedEvent) (r : RAF)
    (now timeToCall newID : Nat) : RAF × List SchedEvent :=
  let (r1, evs1) := driver now r
  ({ r1 with timeOutID := newID },
   SchedEvent.driverCall now :: evs1 ++ [SchedEvent.setTimeoutCall timeToCall])

/-- A driver that synchronously calls `stop()` during its own invocation and
does nothing else. -/
def stopDriver : Nat → RAF → RAF × List SchedEvent :=
  fun _ r => r.stop

end Phaser

example : Phaser.Device.canPlayAudio Phaser.Device.init "mp3" = false := by decide
example : Phaser.Device.canPlayAudio { Phaser.Device.init with opus := true } "ogg" = true := by
  decide
example : Phaser.Device.canPlayVideo { Phaser.Device.init with oggVideo := true } "ogv" = true := by
  decide
example : Phaser.Device.canPlayVideo { Phaser.Device.init with hlsVideo := true } "mpeg" = true := by
  decide

namespace Phaser

/-- Claim C7: `start()` selects the fallback timer path exactly when
`requestAnimationFrame` is unavailable on the host or the caller forced the
fallback at construction; afterwards `isSetTimeOut()` returns true iff the
fallback path was selected, `isRAF()` returns its logical negation, and
`start()` sets `isRunning` to true; the scheduling call issued matches the
selected path. -/
theorem RAF.start_selects_path (r : RAF) (rafAvailable : Bool) (newID : Nat) :
    (r.start rafAvailable newID).1.isRunning = true ∧
    (r.start rafAvailable newID).1.isSetTimeOut = (!rafAvailable || r.forceSetTimeOut) ∧
    (r.start rafAvailable newID).1.isRAF = !(r.start rafAvailable newID).1.isSetTimeOut ∧
    (r.start rafAvailable newID).2 =
      (if !rafAvailable || r.forceSetTimeOut then [SchedEvent.setTimeoutCall 0]
       else [SchedEvent.requestFrame]) := by
  cases hf : r.forceSetTimeOut <;> cases rafAvailable <;>
    simp [RAF.start, RAF.isSetTimeOut, RAF.isRAF, hf]

/-- Claim C2 (refuted by the code): on both scheduler paths the source
reschedules unconditionally after the driver call returns, so a driver that
calls `stop()` synchronously during its own invocation does not prevent the
next scheduling request.  On the preferred path (`updateRAF`, starting from
the running state with pending token 3) the driver's `stop()` cancels the
already-delivered token and clears `isRunning`, yet a new
`requestAnimationFrame` request is issued afterwards; the fallback path
(`updateSetTimeout`) likewise issues a new `setTimeout` request; and
delivering the still-pending frame invokes the driver again. -/
theorem RAF.update_reschedules_after_synchronous_stop :
    RAF.updateRAF stopDriver ⟨true, false, false, 3⟩ 16 7 =
      (⟨false, false, false, 7⟩,
       [SchedEvent.driverCall 16, SchedEvent.cancelFrame 3, SchedEvent.requestFrame]) ∧
    RAF.updateSetTimeout stopDriver ⟨true, true, true, 4⟩ 100 16 9 =
      (⟨false, true, true, 9⟩,
       [SchedEvent.driverCall 100, SchedEvent.clearTimeout 4, SchedEvent.setTimeoutCall 16]) ∧
    SchedEvent.driverCall 32 ∈ (RAF.updateRAF stopDriver ⟨false, false, false, 7⟩ 32 11).2 := by
  decide

/-- Claim C3: a `whenReady` call made after the registry is ready invokes the
callback exactly once, synchronously within the call, with the given context
as receiver and the registry itself as first argument, appends nothing to
the queue and changes no state; folding any number of such post-ready
subscriptions invokes each exactly once, in order, with the state unchanged
throughout. -/
theorem Device.whenReady_after_ready (probe : Device → Device) (d : Device)
    (hready : d.deviceReadyAt ≠ 0) (cb ctx : Nat) (np : Bool) (host : Host)
    (subs : List (Nat × Nat)) :
    d.whenReady cb ctx np host = (d, [Event.invoke cb ctx]) ∧
    Device.runOps probe d (subs.map fun p => Op.subscribe p.1 p.2 np host) =
      some (d, subs.map fun p => Event.invoke p.1 p.2) := by
  have hsingle : ∀ cb1 ctx1 : Nat, d.whenReady cb1 ctx1 np host = (d, [Event.invoke cb1 ctx1]) := by
    intro cb1 ctx1
    unfold Device.whenReady
    rw [if_pos (Or.inl hready)]
  refine ⟨hsingle cb ctx, ?_⟩
  induction subs with
  | nil => rfl
  | cons s rest ih =>
    simp only [List.map_cons, Device.runOps, Device.applyOp, hsingle s.1 s.2, ih,
      List.singleton_append]

/-- Claim C8: the first arming `whenReady` call chooses exactly one listener
strategy by host inspection, in priority order: document already
interactive/complete schedules the readiness check on the next tick
(`setTimeout` 0), else Cordova-and-not-CocoonJS listens only for
`deviceready`, else both `DOMContentLoaded` and window `load` are attached. -/
theorem Device.whenReady_arming_strategy (d : Device) (h1 : d.deviceReadyAt = 0)
    (h2 : d.readyCheckPresent = true) (h3 : d.monitorSet = false)
    (cb ctx : Nat) (host : Host) :
    d.whenReady cb ctx false host =
      ({ d with monitorSet := true, queue := d.queue ++ [(cb, ctx)] },
       [Event.attach host.chooseStrategy]) ∧
    ((host.readyStateComplete = true ∨ host.readyStateInteractive = true) →
      host.chooseStrategy = ListenStrategy.timeoutZero) ∧
    (¬(host.readyStateComplete = true ∨ host.readyStateInteractive = true) →
      host.cordova = true → host.isCocoonJS = false →
      host.chooseStrategy = ListenStrategy.deviceReadyEvent) ∧
    (¬(host.readyStateComplete = true ∨ host.readyStateInteractive = true) →
      ¬(host.cordova = true ∧ host.isCocoonJS = false) →
      host.chooseStrategy = ListenStrategy.contentAndLoad) := by
  refine ⟨?_, ?_, ?_, ?_⟩
  · simp [Device.whenReady, h1, h2, h3]
  · intro h
    simp [Host.chooseStrategy, h]
  · intro hn hc hcj
    simp [Host.chooseStrategy, hn, hc, hcj]
  · intro hn hcc
    simp only [Host.chooseStrategy]
    rw [if_neg, if_neg]
    · simpa using hcc
    · simpa using hn

/-- Claim C9: `canPlayAudio` and `canPlayVideo` are pure lookups over the
capability record: any type outside the recognized enumeration yields false;
a recognized type whose own corresponding flags are all false yields false —
per kind, regardless of the other flags (and hence also when every flag is
false); and the result depends only on the media-capability flags (no other
state is read, and being plain functions they mutate nothing). -/
theorem Device.canPlay_pure_lookup (d d1 : Device) (type : String) :
    (type ∉ ["mp3", "ogg", "m4a", "opus", "wav", "webm"] →
      d.canPlayAudio type = false) ∧
    ((d.mp3 = false ∧ d.ogg = false ∧ d.m4a = false ∧ d.opus = false ∧
        d.wav = false ∧ d.webm = false) →
      d.canPlayAudio type = false) ∧
    (type ∉ ["webm", "mp4", "ogg", "ogv", "mpeg"] →
      d.canPlayVideo type = false) ∧
    ((d.webmVideo = false ∧ d.vp9Video = false ∧ d.mp4Video = false ∧
        d.h264Video = false ∧ d.oggVideo = false ∧ d.hlsVideo = false) →
      d.canPlayVideo type = false) ∧
    ((d.mp3 = d1.mp3 ∧ d.ogg = d1.ogg ∧ d.m4a = d1.m4a ∧ d.opus = d1.opus ∧
        d.wav = d1.wav ∧ d.webm = d1.webm) →
      d.canPlayAudio type = d1.canPlayAudio type) ∧
    ((d.webmVideo = d1.webmVideo ∧ d.vp9Video = d1.vp9Video ∧
        d.mp4Video = d1.mp4Video ∧ d.h264Video = d1.h264Video ∧
        d.oggVideo = d1.oggVideo ∧ d.hlsVideo = d1.hlsVideo) →
      d.canPlayVideo type = d1.canPlayVideo type) ∧
    (d.mp3 = false → d.canPlayAudio "mp3" = false) ∧
    (d.ogg = false → d.opus = false → d.canPlayAudio "ogg" = false) ∧
    (d.m4a = false → d.canPlayAudio "m4a" = false) ∧
    (d.opus = false → d.canPlayAudio "opus" = false) ∧
    (d.wav = false → d.canPlayAudio "wav" = false) ∧
    (d.webm = false → d.canPlayAudio "webm" = false) ∧
    (d.webmVideo = false → d.vp9Video = false → d.canPlayVideo "webm" = false) ∧
    (d.mp4Video = false → d.h264Video = false → d.canPlayVideo "mp4" = false) ∧
    (d.oggVideo = false →
      d.canPlayVideo "ogg" = false ∧ d.canPlayVideo "ogv" = false) ∧
    (d.hlsVideo = false → d.canPlayVideo "mpeg" = false) := by
  refine ⟨?_, ?_, ?_, ?_, ?_, ?_, ?_, ?_, ?_, ?_, ?_, ?_, ?_, ?_, ?_, ?_⟩
  · intro h
    simp only [List.mem_cons, List.not_mem_nil, or_false, not_or] at h
    obtain ⟨n1, n2, n3, n4, n5, n6⟩ := h
    simp [Device.canPlayAudio, n1, n2, n3, n4, n5, n6]
  · rintro ⟨f1, f2, f3, f4, f5, f6⟩
    simp [Device.canPlayAudio, f1, f2, f3, f4, f5, f6]
  · intro h
    simp only [List.mem_cons, List.not_mem_nil, or_false, not_or] at h
    obtain ⟨n1, n2, n3, n4, n5⟩ := h
    simp [Device.canPlayVideo, n1, n2, n3, n4, n5]
  · rintro ⟨f1, f2, f3, f4, f5, f6⟩
    simp [Device.canPlayVideo, f1, f2, f3, f4, f5, f6]
  · rintro ⟨f1, f2, f3, f4, f5, f6⟩
    simp only [Device.canPlayAudio, f1, f2, f3, f4, f5, f6]
  · rintro ⟨f1, f2, f3, f4, f5, f6⟩
    simp only [Device.canPlayVideo, f1, f2, f3, f4, f5, f6]
  · intro h
    simp [Device.canPlayAudio, h]
  · intro h1 h2
    simp [Device.canPlayAudio, h1, h2]
  · intro h
    simp [Device.canPlayAudio, h]
  · intro h
    simp [Device.canPlayAudio, h]
  · intro h
    simp [Device.canPlayAudio, h]
  · intro h
    simp [Device.canPlayAudio, h]
  · intro h1 h2
    simp [Device.canPlayVideo, h1, h2]
  · intro h1 h2
    simp [Device.canPlayVideo, h1, h2]
  · intro h
    simp [Device.canPlayVideo, h]
  · intro h
    simp [Device.canPlayVideo, h]

/-- Witness for C9 at concrete inputs: the unrecognized audio kind "flac" and
the unrecognized video kind "avi" on the pristine registry, plus mixed
records where only another kind is detected: audio "mp3" with the mp3 flag
false but ogg set, and video "mpeg" with hlsVideo false but webmVideo set. -/
theorem Device.canPlay_pure_lookup_witness :
    Device.canPlayAudio Device.init "flac" = false ∧
    Device.canPlayVideo Device.init "avi" = false ∧
    Device.canPlayAudio { Device.init with ogg := true } "mp3" = false ∧
    Device.canPlayVideo { Device.init with webmVideo := true } "mpeg" = false :=
  ⟨(Device.canPlay_pure_lookup Device.init Device.init "flac").1 (by decide),
   (Device.canPlay_pure_lookup Device.init Device.init "avi").2.2.1 (by decide),
   (Device.canPlay_pure_lookup { Device.init with ogg := true }
      Device.init "mp3").2.2.2.2.2.2.1 (by decide),
   (Device.canPlay_pure_lookup { Device.init with webmVideo := true }
      Device.init "mpeg").2.2.2.2.2.2.2.2.2.2.2.2.2.2.2 (by decide)⟩

/-- Claim C10: the media queries accept alias kinds beyond a one-flag lookup:
audio "ogg" is accepted iff the ogg or opus flag is set; video "ogg" and
"ogv" iff oggVideo; video "webm" iff webmVideo or vp9Video; video "mp4" iff
mp4Video or h264Video; video "mpeg" iff hlsVideo. -/
theorem Device.canPlay_alias (d : Device) :
    d.canPlayAudio "ogg" = (d.ogg || d.opus) ∧
    d.canPlayVideo "ogg" = d.oggVideo ∧
    d.canPlayVideo "ogv" = d.oggVideo ∧
    d.canPlayVideo "webm" = (d.webmVideo || d.vp9Video) ∧
    d.canPlayVideo "mp4" = (d.mp4Video || d.h264Video) ∧
    d.canPlayVideo "mpeg" = d.hlsVideo := by
  refine ⟨?_, ?_, ?_, ?_, ?_, ?_⟩
  · cases h1 : d.ogg <;> cases h2 : d.opus <;> simp [Device.canPlayAudio, h1, h2]
  · cases h1 : d.oggVideo <;> simp [Device.canPlayVideo, h1]
  · cases h1 : d.oggVideo <;> simp [Device.canPlayVideo, h1]
  · cases h1 : d.webmVideo <;> cases h2 : d.vp9Video <;> simp [Device.canPlayVideo, h1, h2]
  · cases h1 : d.mp4Video <;> cases h2 : d.h264Video <;> simp [Device.canPlayVideo, h1, h2]
  · cases h1 : d.hlsVideo <;> simp [Device.canPlayVideo, h1]

theorem Event.invokes_append (a b : List Event) :
    Event.invokes (a ++ b) = Event.invokes a ++ Event.invokes b :=
  List.filterMap_append a b _

theorem Event.invokes_map_invoke (l : List (Nat × Nat)) :
    Event.invokes (l.map fun p => Event.invoke p.1 p.2) = l := by
  induction l with
  | nil => rfl
  | cons p rest ih =>
    simp only [List.map_cons, Event.invokes, List.filterMap_cons] at ih ⊢
    simp [ih]

theorem Event.count_map_invoke (l : List (Nat × Nat)) (e : Event)
    (he : ∀ cb ctx, e ≠ Event.invoke cb ctx) :
    (l.map fun p => Event.invoke p.1 p.2).count e = 0 := by
  rw [List.count_eq_zero]
  simp only [List.mem_map, not_exists]
  rintro p ⟨_, hEq⟩
  exact he p.1 p.2 hEq.symm

theorem Event.attachCount_append (a b : List Event) :
    Event.attachCount (a ++ b) = Event.attachCount a + Event.attachCount b :=
  List.countP_append _ a b

theorem Event.attachCount_map_invoke (l : List (Nat × Nat)) :
    Event.attachCount (l.map fun p => Event.invoke p.1 p.2) = 0 := by
  induction l with
  | nil => rfl
  | cons p rest ih => simp [Event.attachCount, List.countP_cons, ih]

/-- Running a concatenated operation sequence threads the state through the
first part and concatenates the event logs. -/
theorem Device.runOps_append (probe : Device → Device) (d : Device) (l1 l2 : List Op) :
    Device.runOps probe d (l1 ++ l2) =
      match Device.runOps probe d l1 with
      | none => none
      | some (d1, e1) =>
        match Device.runOps probe d1 l2 with
        | none => none
        | some (d2, e2) => some (d2, e1 ++ e2) := by
  induction l1 generalizing d with
  | nil =>
    simp only [List.nil_append, Device.runOps]
    cases h : Device.runOps probe d l2 with
    | none => rfl
    | some p =>
      obtain ⟨d2, e2⟩ := p
      simp
  | cons op l1 ih =>
    simp only [List.cons_append, Device.runOps]
    cases happ : d.applyOp probe op with
    | none => rfl
    | some p =>
      obtain ⟨d1, e1⟩ := p
      dsimp only
      simp only [List.append_eq]
      rw [ih]
      cases h1 : Device.runOps probe d1 l1 with
      | none => rfl
      | some q =>
        obtain ⟨d2, e2⟩ := q
        cases h2 : Device.runOps probe d2 l2 with
        | none => simp [h2]
        | some r =>
          obtain ⟨d3, e3⟩ := r
          simp [h2, List.append_assoc]

/-- Once the registry is ready (`deviceReadyAt` non-zero), every further
readiness-signal firing is a complete no-op: state unchanged, no events. -/
theorem Device.fires_noop (probe : Device → Device) (d : Device)
    (h : d.deviceReadyAt ≠ 0) (ts : List Nat) :
    Device.runOps probe d (ts.map fun s => Op.fire true s) = some (d, []) := by
  induction ts with
  | nil => rfl
  | cons t rest ih =>
    simp [Device.runOps, Device.applyOp, Device.readyCheckStep, h, ih]

/-- Before readiness, a sequence of `whenReady` calls appends the
(callback, context) pairs to the queue in order, arms at most the monitor
flag, and invokes nobody. -/
theorem Device.subscribes_append (probe : Device → Device) (host : Host)
    (subs : List (Nat × Nat)) (d : Device)
    (h1 : d.deviceReadyAt = 0) (h2 : d.readyCheckPresent = true) :
    ∃ evs : List Event,
      Device.runOps probe d (subs.map fun p => Op.subscribe p.1 p.2 false host) =
        some ({ d with monitorSet := d.monitorSet || !subs.isEmpty,
                       queue := d.queue ++ subs }, evs) ∧
      Event.invokes evs = [] := by
  induction subs generalizing d with
  | nil =>
    refine ⟨[], ?_, rfl⟩
    simp [Device.runOps]
  | cons s rest ih =>
    cases hm : d.monitorSet with
    | true =>
      obtain ⟨evs2, hrun2, hinv2⟩ :=
        ih { d with queue := d.queue ++ [s] } (by simp [h1]) (by simp [h2])
      refine ⟨evs2, ?_, hinv2⟩
      simp only [List.map_cons, Device.runOps, Device.applyOp, Device.whenReady,
        h1, h2, hm] at hrun2 ⊢
      simp only [ne_eq, not_true_eq_false, or_self, if_false, not_false_eq_true,
        true_or, if_true]
      rw [hrun2]
      simp [hm]
    | false =>
      obtain ⟨evs2, hrun2, hinv2⟩ :=
        ih { d with monitorSet := true, queue := d.queue ++ [s] }
          (by simp [h1]) (by simp [h2])
      refine ⟨Event.attach host.chooseStrategy :: evs2, ?_, ?_⟩
      · simp only [List.map_cons, Device.runOps, Device.applyOp, Device.whenReady,
          h1, h2, hm] at hrun2 ⊢
        simp only [ne_eq, not_true_eq_false, or_self, if_false, not_false_eq_true,
          false_or, Bool.false_eq_true, if_false]
        rw [hrun2]
        simp
      · simp only [Event.invokes, List.filterMap_cons] at hinv2 ⊢
        exact hinv2

/-- Claim C1: for any sequence of one or more readiness-signal firings
delivered to the armed registry (document body present, a positive clock),
the probe pass runs exactly once, the capability record is written exactly
once, each queued subscriber is notified exactly once in queue order, and
the whole run is indistinguishable from its first firing alone: every later
firing is a no-op. -/
theorem Device.readyCheck_probes_once (probe : Device → Device)
    (hp : ProbePreserves probe) (d : Device)
    (h1 : d.deviceReadyAt = 0) (h2 : d.readyCheckPresent = true)
    (t : Nat) (ht : 0 < t) (rest : List Nat) :
    ∃ dR evs,
      Device.runOps probe d ((t :: rest).map fun s => Op.fire true s) = some (dR, evs) ∧
      Device.runOps probe d [Op.fire true t] = some (dR, evs) ∧
      dR.initialized = true ∧
      evs.count Event.probeRun = 1 ∧
      evs.count Event.capWrite = 1 ∧
      Event.invokes evs = d.queue := by
  have hstep : d.readyCheckStep probe true t =
      some ({ probe { d with deviceReadyAt := t } with
                initialized := true, readyCheckPresent := false, queue := [] },
        [Event.probeRun, Event.capWrite, Event.dispatchInit] ++
          d.queue.map fun p => Event.invoke p.1 p.2) := by
    simp [Device.readyCheckStep, h1, h2]
  have hready :
      ({ probe { d with deviceReadyAt := t } with
          initialized := true, readyCheckPresent := false,
          queue := ([] : List (Nat × Nat)) } : Device).deviceReadyAt ≠ 0 := by
    have hpr := (hp { d with deviceReadyAt := t }).1
    simp only [hpr]
    simpa using ht.ne'
  refine ⟨{ probe { d with deviceReadyAt := t } with
              initialized := true, readyCheckPresent := false, queue := [] },
    [Event.probeRun, Event.capWrite, Event.dispatchInit] ++
      d.queue.map fun p => Event.invoke p.1 p.2,
    ?_, ?_, rfl, ?_, ?_, ?_⟩
  · simp only [List.map_cons, Device.runOps, Device.applyOp, hstep]
    rw [Device.fires_noop probe _ hready rest]
    simp
  · simp only [Device.runOps, Device.applyOp, hstep]
    simp
  · simp only [List.count_append, List.count_cons]
    rw [Event.count_map_invoke _ _ (by intro cb ctx h; cases h)]
    decide
  · simp only [List.count_append, List.count_cons]
    rw [Event.count_map_invoke _ _ (by intro cb ctx h; cases h)]
    decide
  · rw [Event.invokes_append, Event.invokes_map_invoke]
    rfl

/-- Claim C4: subscribers registered in order before readiness are notified
on the ready transition in exactly that order, each with its own context
(and, at the call site, the registry itself as argument). -/
theorem Device.notify_fifo (probe : Device → Device) (host : Host)
    (subs : List (Nat × Nat)) (t : Nat) :
    ∃ dF evs,
      Device.runOps probe Device.init
        ((subs.map fun p => Op.subscribe p.1 p.2 false host) ++ [Op.fire true t]) =
        some (dF, evs) ∧
      Event.invokes evs = subs := by
  obtain ⟨evsA, hrunA, hinvA⟩ :=
    Device.subscribes_append probe host subs Device.init rfl rfl
  have hstepM :
      Device.readyCheckStep probe
        { Device.init with monitorSet := Device.init.monitorSet || !subs.isEmpty,
                           queue := Device.init.queue ++ subs } true t =
      some ({ probe { Device.init with
                monitorSet := Device.init.monitorSet || !subs.isEmpty,
                queue := Device.init.queue ++ subs,
                deviceReadyAt := t } with
              initialized := true, readyCheckPresent := false, queue := [] },
        [Event.probeRun, Event.capWrite, Event.dispatchInit] ++
          subs.map fun p => Event.invoke p.1 p.2) := by
    simp [Device.readyCheckStep, Device.init]
  refine ⟨{ probe { Device.init with
              monitorSet := Device.init.monitorSet || !subs.isEmpty,
              queue := Device.init.queue ++ subs,
              deviceReadyAt := t } with
            initialized := true, readyCheckPresent := false, queue := [] },
    evsA ++
      ([Event.probeRun, Event.capWrite, Event.dispatchInit] ++
        subs.map fun p => Event.invoke p.1 p.2), ?_, ?_⟩
  · rw [Device.runOps_append, hrunA]
    simp only [Device.runOps, Device.applyOp, hstepM]
    simp
  · rw [Event.invokes_append, hinvA, Event.invokes_append, Event.invokes_map_invoke]
    rfl

/-- Preservation of the initialized-implies-ready-and-drained invariant by a
single registry operation (with a positive clock on firings). -/
theorem Device.applyOp_initialized_inv (probe : Device → Device)
    (hp : ProbePreserves probe) (d d1 : Device) (op : Op) (hop : op.fireTimePos)
    (evs : List Event)
    (happ : d.applyOp probe op = some (d1, evs))
    (hinv : d.initialized = true → d.deviceReadyAt ≠ 0 ∧ d.queue = []) :
    d1.initialized = true → d1.deviceReadyAt ≠ 0 ∧ d1.queue = [] := by
  cases op with
  | subscribe cb ctx np host =>
    simp only [Device.applyOp, Device.whenReady] at happ
    by_cases hb1 : d.deviceReadyAt ≠ 0 ∨ ¬d.readyCheckPresent
    · rw [if_pos hb1] at happ
      simp only [Option.some.injEq, Prod.mk.injEq] at happ
      obtain ⟨rfl, rfl⟩ := happ
      exact hinv
    · rw [if_neg hb1] at happ
      push_neg at hb1
      by_cases hb2 : (d.monitorSet : Prop) ∨ (np : Prop)
      · rw [if_pos hb2] at happ
        simp only [Option.some.injEq, Prod.mk.injEq] at happ
        obtain ⟨rfl, rfl⟩ := happ
        intro hi
        simp only at hi
        exact absurd (hinv hi).1 (by simp [hb1.1])
      · rw [if_neg hb2] at happ
        simp only [Option.some.injEq, Prod.mk.injEq] at happ
        obtain ⟨rfl, rfl⟩ := happ
        intro hi
        simp only at hi
        exact absurd (hinv hi).1 (by simp [hb1.1])
  | fire body now =>
    simp only [Op.fireTimePos] at hop
    simp only [Device.applyOp, Device.readyCheckStep] at happ
    by_cases hb : (body : Prop)
    · rw [if_neg (not_not_intro hb)] at happ
      by_cases hz : d.deviceReadyAt = 0
      · rw [if_pos hz] at happ
        by_cases hrc : (d.readyCheckPresent : Prop)
        · rw [if_pos hrc] at happ
          simp only [Option.some.injEq, Prod.mk.injEq] at happ
          obtain ⟨rfl, rfl⟩ := happ
          intro _
          refine ⟨?_, rfl⟩
          have hpr := (hp { d with deviceReadyAt := now }).1
          simp only [hpr]
          simpa using hop.ne'
        · rw [if_neg hrc] at happ
          cases happ
      · rw [if_neg hz] at happ
        simp only [Option.some.injEq, Prod.mk.injEq] at happ
        obtain ⟨rfl, rfl⟩ := happ
        exact hinv
    · rw [if_pos (by simpa using hb)] at happ
      by_cases hrc : (d.readyCheckPresent : Prop)
      · rw [if_pos hrc] at happ
        simp only [Option.some.injEq, Prod.mk.injEq] at happ
        obtain ⟨rfl, rfl⟩ := happ
        exact hinv
      · rw [if_neg hrc] at happ
        cases happ

/-- The initialized-implies-ready-and-drained invariant propagates through
any run of registry operations. -/
theorem Device.runOps_initialized_inv (probe : Device → Device)
    (hp : ProbePreserves probe) (ops : List Op)
    (hops : ∀ op ∈ ops, op.fireTimePos) (d dF : Device) (evs : List Event)
    (hrun : Device.runOps probe d ops = some (dF, evs))
    (hinv : d.initialized = true → d.deviceReadyAt ≠ 0 ∧ d.queue = []) :
    dF.initialized = true → dF.deviceReadyAt ≠ 0 ∧ dF.queue = [] := by
  induction ops generalizing d evs with
  | nil =>
    simp only [Device.runOps, Option.some.injEq, Prod.mk.injEq] at hrun
    obtain ⟨rfl, rfl⟩ := hrun
    exact hinv
  | cons op ops ih =>
    simp only [Device.runOps] at hrun
    cases happ : d.applyOp probe op with
    | none => rw [happ] at hrun; cases hrun
    | some p =>
      obtain ⟨d1, e1⟩ := p
      rw [happ] at hrun
      dsimp only at hrun
      cases hrest : Device.runOps probe d1 ops with
      | none => rw [hrest] at hrun; cases hrun
      | some q =>
        obtain ⟨d2, e2⟩ := q
        rw [hrest] at hrun
        simp only [Option.some.injEq, Prod.mk.injEq] at hrun
        obtain ⟨rfl, rfl⟩ := hrun
        exact ih (fun o ho => hops o (List.mem_cons_of_mem op ho)) d1 e2 hrest
          (Device.applyOp_initialized_inv probe hp d d1 op
            (hops op (List.mem_cons_self op ops)) e1 happ hinv)

/-- Claim C5: in every reachable quiescent registry state (any sequence of
subscribe calls and readiness firings from the pristine registry, firing
clocks positive), `initialized = true` implies `deviceReadyAt` is non-zero
and the pending queue is empty. -/
theorem Device.initialized_invariant (probe : Device → Device)
    (hp : ProbePreserves probe) (ops : List Op)
    (hops : ∀ op ∈ ops, op.fireTimePos) (dF : Device) (evs : List Event)
    (hrun : Device.runOps probe Device.init ops = some (dF, evs)) :
    dF.initialized = true → dF.deviceReadyAt ≠ 0 ∧ dF.queue = [] :=
  Device.runOps_initialized_inv probe hp ops hops Device.init dF evs hrun
    (by intro h; cases h)

/-- A single registry operation either attaches no listener, or attaches
exactly one while transitioning the monitor from unset to set. -/
theorem Device.applyOp_attach (probe : Device → Device) (d d1 : Device) (op : Op)
    (evs : List Event) (happ : d.applyOp probe op = some (d1, evs)) :
    (Event.attachCount evs = 0 ∨
      (Event.attachCount evs = 1 ∧ d.monitorSet = false ∧ d1.monitorSet = true)) ∧
    ((d.monitorSet = true ∨ d.readyCheckPresent = false) →
      Event.attachCount evs = 0 ∧
        (d1.monitorSet = true ∨ d1.readyCheckPresent = false)) := by
  cases op with
  | subscribe cb ctx np host =>
    simp only [Device.applyOp, Device.whenReady] at happ
    by_cases hb1 : d.deviceReadyAt ≠ 0 ∨ ¬d.readyCheckPresent
    · rw [if_pos hb1] at happ
      simp only [Option.some.injEq, Prod.mk.injEq] at happ
      obtain ⟨rfl, rfl⟩ := happ
      exact ⟨Or.inl (by simp [Event.attachCount]), fun h => ⟨by simp [Event.attachCount], h⟩⟩
    · rw [if_neg hb1] at happ
      push_neg at hb1
      by_cases hb2 : (d.monitorSet : Prop) ∨ (np : Prop)
      · rw [if_pos hb2] at happ
        simp only [Option.some.injEq, Prod.mk.injEq] at happ
        obtain ⟨rfl, rfl⟩ := happ
        refine ⟨Or.inl rfl, fun h => ⟨rfl, ?_⟩⟩
        simpa using h
      · rw [if_neg hb2] at happ
        simp only [Option.some.injEq, Prod.mk.injEq] at happ
        obtain ⟨rfl, rfl⟩ := happ
        push_neg at hb2
        constructor
        · exact Or.inr ⟨by simp [Event.attachCount], by simpa using hb2.1, by simp⟩
        · intro h
          rcases h with h | h
          · exact absurd h (by simpa using hb2.1)
          · exact absurd h (by simp [hb1.2])
  | fire body now =>
    simp only [Device.applyOp, Device.readyCheckStep] at happ
    by_cases hb : (body : Prop)
    · rw [if_neg (not_not_intro hb)] at happ
      by_cases hz : d.deviceReadyAt = 0
      · rw [if_pos hz] at happ
        by_cases hrc : (d.readyCheckPresent : Prop)
        · rw [if_pos hrc] at happ
          simp only [Option.some.injEq, Prod.mk.injEq] at happ
          obtain ⟨rfl, rfl⟩ := happ
          have hcnt : Event.attachCount
              ([Event.probeRun, Event.capWrite, Event.dispatchInit] ++
                d.queue.map fun p => Event.invoke p.1 p.2) = 0 := by
            rw [Event.attachCount_append, Event.attachCount_map_invoke]
            rfl
          exact ⟨Or.inl hcnt, fun _ => ⟨hcnt, Or.inr rfl⟩⟩
        · rw [if_neg hrc] at happ
          cases happ
      · rw [if_neg hz] at happ
        simp only [Option.some.injEq, Prod.mk.injEq] at happ
        obtain ⟨rfl, rfl⟩ := happ
        exact ⟨Or.inl rfl, fun h => ⟨rfl, h⟩⟩
    · rw [if_pos (by simpa using hb)] at happ
      by_cases hrc : (d.readyCheckPresent : Prop)
      · rw [if_pos hrc] at happ
        simp only [Option.some.injEq, Prod.mk.injEq] at happ
        obtain ⟨rfl, rfl⟩ := happ
        exact ⟨Or.inl (by simp [Event.attachCount]),
          fun h => ⟨by simp [Event.attachCount], h⟩⟩
      · rw [if_neg hrc] at happ
        cases happ

/-- Once the monitor is set (or the ready machinery discarded), a run of
registry operations never attaches another listener. -/
theorem Device.runOps_armed (probe : Device → Device) (ops : List Op)
    (d dF : Device) (evs : List Event)
    (hrun : Device.runOps probe d ops = some (dF, evs))
    (h : d.monitorSet = true ∨ d.readyCheckPresent = false) :
    Event.attachCount evs = 0 ∧
      (dF.monitorSet = true ∨ dF.readyCheckPresent = false) := by
  induction ops generalizing d evs with
  | nil =>
    simp only [Device.runOps, Option.some.injEq, Prod.mk.injEq] at hrun
    obtain ⟨rfl, rfl⟩ := hrun
    exact ⟨rfl, h⟩
  | cons op ops ih =>
    simp only [Device.runOps] at hrun
    cases happ : d.applyOp probe op with
    | none => rw [happ] at hrun; cases hrun
    | some p =>
      obtain ⟨d1, e1⟩ := p
      rw [happ] at hrun
      dsimp only at hrun
      cases hrest : Device.runOps probe d1 ops with
      | none => rw [hrest] at hrun; cases hrun
      | some q =>
        obtain ⟨d2, e2⟩ := q
        rw [hrest] at hrun
        simp only [Option.some.injEq, Prod.mk.injEq] at hrun
        obtain ⟨rfl, rfl⟩ := hrun
        obtain ⟨hc1, h1⟩ := (Device.applyOp_attach probe d d1 op e1 happ).2 h
        obtain ⟨hc2, h2⟩ := ih d1 e2 hrest h1
        exact ⟨by rw [Event.attachCount_append, hc1, hc2], h2⟩

/-- Any run of registry operations attaches at most one listener in total. -/
theorem Device.runOps_attach_le_one (probe : Device → Device) (ops : List Op)
    (d dF : Device) (evs : List Event)
    (hrun : Device.runOps probe d ops = some (dF, evs)) :
    Event.attachCount evs ≤ 1 := by
  induction ops generalizing d evs with
  | nil =>
    simp only [Device.runOps, Option.some.injEq, Prod.mk.injEq] at hrun
    obtain ⟨rfl, rfl⟩ := hrun
    simp [Event.attachCount]
  | cons op ops ih =>
    simp only [Device.runOps] at hrun
    cases happ : d.applyOp probe op with
    | none => rw [happ] at hrun; cases hrun
    | some p =>
      obtain ⟨d1, e1⟩ := p
      rw [happ] at hrun
      dsimp only at hrun
      cases hrest : Device.runOps probe d1 ops with
      | none => rw [hrest] at hrun; cases hrun
      | some q =>
        obtain ⟨d2, e2⟩ := q
        rw [hrest] at hrun
        simp only [Option.some.injEq, Prod.mk.injEq] at hrun
        obtain ⟨rfl, rfl⟩ := hrun
        rw [Event.attachCount_append]
        rcases (Device.applyOp_attach probe d d1 op e1 happ).1 with hc1 | ⟨hc1, _, hm1⟩
        · rw [hc1]
          simpa using ih d1 e2 hrest
        · rw [hc1, (Device.runOps_armed probe ops d1 d2 e2 hrest (Or.inl hm1)).1]

/-- Claim C6: arming happens at most once per registry lifetime: across any
operation sequence from the pristine registry the listener-attachment branch
executes at most once; and any `whenReady` call finding the monitor already
set (or passing nonPrimer) only appends the pair to the queue, attaching no
listener. -/
theorem Device.arming_at_most_once (probe : Device → Device) (ops : List Op)
    (dF : Device) (evs : List Event)
    (hrun : Device.runOps probe Device.init ops = some (dF, evs)) :
    Event.attachCount evs ≤ 1 ∧
    ∀ (d : Device) (cb ctx : Nat) (np : Bool) (host : Host),
      d.deviceReadyAt = 0 → d.readyCheckPresent = true →
      (d.monitorSet = true ∨ np = true) →
      d.whenReady cb ctx np host = ({ d with queue := d.queue ++ [(cb, ctx)] }, []) := by
  refine ⟨Device.runOps_attach_le_one probe ops Device.init dF evs hrun, ?_⟩
  intro d cb ctx np host h1 h2 h3
  unfold Device.whenReady
  rw [if_neg (by simp [h1, h2]), if_pos (by simpa using h3)]

/-- Witness for C1 at a concrete armed registry with two queued subscribers,
the identity probe, first firing at clock 5 and two redundant firings. -/
theorem Device.readyCheck_probes_once_witness :
    ∃ dR evs,
      Device.runOps id { Device.init with monitorSet := true, queue := [(1, 10), (2, 20)] }
          (((5 : Nat) :: [9, 13]).map fun s => Op.fire true s) = some (dR, evs) ∧
      Device.runOps id { Device.init with monitorSet := true, queue := [(1, 10), (2, 20)] }
          [Op.fire true 5] = some (dR, evs) ∧
      dR.initialized = true ∧
      evs.count Event.probeRun = 1 ∧
      evs.count Event.capWrite = 1 ∧
      Event.invokes evs = [(1, 10), (2, 20)] :=
  Device.readyCheck_probes_once id (fun _ => ⟨rfl, rfl, rfl, rfl, rfl⟩)
    { Device.init with monitorSet := true, queue := [(1, 10), (2, 20)] }
    rfl rfl 5 (by decide) [9, 13]

/-- Witness for C3 on a concrete ready registry and two post-ready
subscriptions. -/
theorem Device.whenReady_after_ready_witness :
    ({ Device.init with deviceReadyAt := 7 } : Device).whenReady 1 10 false
        ⟨true, false, false, false⟩ =
      ({ Device.init with deviceReadyAt := 7 }, [Event.invoke 1 10]) ∧
    Device.runOps id { Device.init with deviceReadyAt := 7 }
        ([(1, 10), (2, 20)].map fun p =>
          Op.subscribe p.1 p.2 false ⟨true, false, false, false⟩) =
      some ({ Device.init with deviceReadyAt := 7 },
        [(1, 10), (2, 20)].map fun p => Event.invoke p.1 p.2) :=
  Device.whenReady_after_ready id { Device.init with deviceReadyAt := 7 }
    (by decide) 1 10 false ⟨true, false, false, false⟩ [(1, 10), (2, 20)]

/-- Witness for C5 on the concrete run: one subscription, then a readiness
firing at clock 5. -/
theorem Device.initialized_invariant_witness :
    ({ Device.init with
        deviceReadyAt := 5, initialized := true,
        readyCheckPresent := false, monitorSet := true } : Device).deviceReadyAt ≠ 0 ∧
    ({ Device.init with
        deviceReadyAt := 5, initialized := true,
        readyCheckPresent := false, monitorSet := true } : Device).queue = [] :=
  Device.initialized_invariant id (fun _ => ⟨rfl, rfl, rfl, rfl, rfl⟩)
    [Op.subscribe 1 10 false ⟨true, false, false, false⟩, Op.fire true 5]
    (by simp [Op.fireTimePos])
    { Device.init with
      deviceReadyAt := 5, initialized := true,
      readyCheckPresent := false, monitorSet := true }
    [Event.attach ListenStrategy.timeoutZero, Event.probeRun, Event.capWrite,
      Event.dispatchInit, Event.invoke 1 10]
    (by decide) rfl

/-- Witness for C6 on the same concrete run, plus a concrete already-armed
`whenReady` call that only enqueues. -/
theorem Device.arming_at_most_once_witness :
    Event.attachCount [Event.attach ListenStrategy.timeoutZero, Event.probeRun,
      Event.capWrite, Event.dispatchInit, Event.invoke 1 10] ≤ 1 ∧
    ({ Device.init with monitorSet := true } : Device).whenReady 2 20 false
        ⟨true, false, false, false⟩ =
      ({ Device.init with monitorSet := true, queue := [(2, 20)] }, []) :=
  ⟨(Device.arming_at_most_once id
      [Op.subscribe 1 10 false ⟨true, false, false, false⟩, Op.fire true 5]
      { Device.init with
        deviceReadyAt := 5, initialized := true,
        readyCheckPresent := false, monitorSet := true }
      [Event.attach ListenStrategy.timeoutZero, Event.probeRun, Event.capWrite,
        Event.dispatchInit, Event.invoke 1 10]
      (by decide)).1,
   (Device.arming_at_most_once id
      [Op.subscribe 1 10 false ⟨true, false, false, false⟩, Op.fire true 5]
      { Device.init with
        deviceReadyAt := 5, initialized := true,
        readyCheckPresent := false, monitorSet := true }
      [Event.attach ListenStrategy.timeoutZero, Event.probeRun, Event.capWrite,
        Event.dispatchInit, Event.invoke 1 10]
      (by decide)).2
     { Device.init with monitorSet := true } 2 20 false
     ⟨true, false, false, false⟩ rfl rfl (Or.inl rfl)⟩

/-- Witness for C8 on a concrete Cordova host that is not CocoonJS and whose
document is still loading. -/
theorem Device.whenReady_arming_strategy_witness :
    Device.init.whenReady 1 10 false ⟨false, false, true, false⟩ =
      ({ Device.init with monitorSet := true, queue := [(1, 10)] },
       [Event.attach (Host.chooseStrategy ⟨false, false, true, false⟩)]) ∧
    Host.chooseStrategy ⟨false, false, true, false⟩ = ListenStrategy.deviceReadyEvent :=
  ⟨(Device.whenReady_arming_strategy Device.init rfl rfl rfl 1 10
      ⟨false, false, true, false⟩).1,
   (Device.whenReady_arming_strategy Device.init rfl rfl rfl 1 10
      ⟨false, false, true, false⟩).2.2.1 (by decide) rfl rfl⟩

end Phaser
